import Mathlib

/-!
Shallow embedding of the antsdr_dji_droneid repository (dji_receiver.py,
djidrone_cot.py, rece_info.py).

Modelling conventions:
* A Python `bytes` value is a `List Nat`, each element a byte value below 256.
* Text produced by `bytes.decode` is modelled as its byte sequence; `rstrip`
  of NUL characters and `strip` of whitespace operate on those bytes.
* An IEEE-754 double is carried as its 64-bit pattern (a `Nat`) at the decode
  layer; an interpretation function maps finite patterns to exact rationals
  for the validation layer (non-finite patterns are outside every claim).
* Python exceptions become explicit `Option`/`Except`/sum results.
-/

deriving instance DecidableEq for Except

/-- Python slice `l[a:b]` for non-negative bounds: the elements with index in
`[a, min b l.length)`; out-of-range bounds are clamped, never an error. -/
def pySlice (l : List Nat) (a b : Nat) : List Nat :=
  (l.drop a).take (b - a)

/-- Little-endian byte-list to natural number: the first byte is the least
significant, as in `struct.unpack` with the `<` marker. -/
def leNat : List Nat → Nat
  | [] => 0
  | b :: rest => b + 256 * leNat rest

/-- Reference little-endian read of `k` bytes of `data` starting at absolute
offset `off`, written by direct indexing (missing bytes read as 0). Used as
the specification side when checking the decoder's slice arithmetic. -/
def refLE (data : List Nat) : Nat → Nat → Nat
  | _, 0 => 0
  | off, k + 1 => data.getD off 0 + 256 * refLE data (off + 1) k

/-- Two's-complement reading of a 16-bit pattern as a signed integer. -/
def toI16 (n : Nat) : ℤ :=
  if n < 32768 then (n : ℤ) else (n : ℤ) - 65536

/-- Model of `struct.unpack('<d', bs)` at the bit level: requires exactly
8 bytes (otherwise `struct.error`), and yields the 64-bit pattern. -/
def unpackF64 (bs : List Nat) : Option Nat :=
  if bs.length = 8 then some (leNat bs) else none

/-- Model of `struct.unpack('<H', bs)`: requires exactly 2 bytes. -/
def unpackU16le (bs : List Nat) : Option Nat :=
  if bs.length = 2 then some (leNat bs) else none

/-- Model of `struct.unpack('<h', bs)`: requires exactly 2 bytes, signed. -/
def unpackI16 (bs : List Nat) : Option ℤ :=
  if bs.length = 2 then some (toI16 (leNat bs)) else none

/-- Model of `str.rstrip('\x00')`: drop trailing NUL bytes. -/
def rstrip0 (bs : List Nat) : List Nat :=
  (bs.reverse.dropWhile (fun b => b = 0)).reverse

/-- ASCII whitespace bytes stripped by Python `str.strip()`. -/
def isWsByte (b : Nat) : Bool :=
  b = 9 || b = 10 || b = 11 || b = 12 || b = 13 || b = 32

/-- Model of `str.strip()`: drop leading and trailing whitespace. -/
def stripWs (bs : List Nat) : List Nat :=
  ((bs.dropWhile isWsByte).reverse.dropWhile isWsByte).reverse

/-- Interpretation of a finite IEEE-754 binary64 bit pattern as an exact
rational (finite doubles are exactly representable in ℚ). Patterns with the
maximal exponent (NaN and infinities) are idealised to 0; no claim in this
development evaluates the pipeline on a non-finite coordinate or velocity. -/
def f64ToRat (bits : Nat) : ℚ :=
  let sign : ℕ := bits / 2 ^ 63
  let ex : ℕ := bits / 2 ^ 52 % 2 ^ 11
  let man : ℕ := bits % 2 ^ 52
  if ex = 2047 then 0
  else
    let mag : ℚ :=
      if ex = 0 then (man : ℚ) * (2 : ℚ) ^ (-(1074 : ℤ))
      else ((2 ^ 52 + man : ℕ) : ℚ) * (2 : ℚ) ^ ((ex : ℤ) - 1075)
    if sign = 0 then mag else -mag

/-- Continuation byte of a UTF-8 sequence. -/
def utf8Cont (b : Nat) : Bool :=
  0x80 ≤ b && b ≤ 0xBF

/-- Validity of a byte sequence under strict UTF-8 decoding, as applied by
Python's `bytes.decode('utf-8')`: rejects overlong encodings, surrogates,
code points above U+10FFFF and truncated sequences. -/
def utf8Valid : List Nat → Bool
  | [] => true
  | b :: rest =>
    if b ≤ 0x7F then utf8Valid rest
    else if b < 0xC2 then false
    else if b ≤ 0xDF then
      match rest with
      | c1 :: r => utf8Cont c1 && utf8Valid r
      | [] => false
    else if b ≤ 0xEF then
      match rest with
      | c1 :: c2 :: r =>
        (if b = 0xE0 then decide (0xA0 ≤ c1 ∧ c1 ≤ 0xBF)
         else if b = 0xED then decide (0x80 ≤ c1 ∧ c1 ≤ 0x9F)
         else utf8Cont c1) && utf8Cont c2 && utf8Valid r
      | _ => false
    else if b ≤ 0xF4 then
      match rest with
      | c1 :: c2 :: c3 :: r =>
        (if b = 0xF0 then decide (0x90 ≤ c1 ∧ c1 ≤ 0xBF)
         else if b = 0xF4 then decide (0x80 ≤ c1 ∧ c1 ≤ 0x8F)
         else utf8Cont c1) && utf8Cont c2 && utf8Cont c3 && utf8Valid r
      | _ => false
    else false

namespace DjiReceiver

/-- The bytes of the constant `ALERT_ID = "drone-alert"`. -/
def ALERT_ID : List Nat := [100, 114, 111, 110, 101, 45, 97, 108, 101, 114, 116]

/-- The bytes of the suffix `" (alert)"` appended to the Self-ID text. -/
def ALERT_SUFFIX : List Nat := [32, 40, 97, 108, 101, 114, 116, 41]

/-- Result of `parse_frame`: success with package type and data, the caught
`struct.error` path returning `(None, None)`, or an uncaught `IndexError`
from `frame[2]` on a frame shorter than 3 bytes (it escapes to the
reconnect handler in `tcp_client`). -/
inductive FrameResult where
  | ok (packageType : Nat) (data : List Nat)
  | failed
  | indexError
deriving DecidableEq

/-- Model of `dji_receiver.parse_frame`: reads `frame[2]` as the package
type, the little-endian u16 at `frame[3:5]` as the total length, and slices
`frame[5:5+length-5]` as the data (Python slicing truncates silently). -/
def parse_frame (frame : List Nat) : FrameResult :=
  if h : frame.length < 3 then .indexError
  else
    match unpackU16le (pySlice frame 3 5) with
    | none => .failed
    | some packageLength =>
      .ok (frame.get ⟨2, by omega⟩) (pySlice frame 5 (5 + packageLength - 5))

/-- The raw locals bound by the `try` block of `dji_receiver.parse_data_1`
before any fallback is applied: text fields decoded and NUL-stripped, every
double carried as its 64-bit pattern, RSSI as a signed integer. -/
structure RawRecord where
  serial_number : List Nat
  device_type : List Nat
  app_lat : Nat
  app_lon : Nat
  drone_lat : Nat
  drone_lon : Nat
  height_agl : Nat
  geodetic_altitude : Nat
  home_lat : Nat
  home_lon : Nat
  freq : Nat
  speed_e : Nat
  speed_n : Nat
  speed_u : Nat
  rssi : ℤ
deriving DecidableEq

/-- The decoding half of `dji_receiver.parse_data_1` (lines 99-127): string
slices are decoded with replacement (never failing) and NUL-stripped, each
numeric slice goes through `struct.unpack`. In Python the first failing
unpack raises `struct.error` and the handler returns `{}`; the result is
all-or-nothing either way, so the thirteen unpacks are matched jointly. -/
def decodeFields (data : List Nat) : Option RawRecord :=
  match unpackF64 (pySlice data 129 137), unpackF64 (pySlice data 137 145),
        unpackF64 (pySlice data 145 153), unpackF64 (pySlice data 153 161),
        unpackF64 (pySlice data 161 169), unpackF64 (pySlice data 169 177),
        unpackF64 (pySlice data 177 185), unpackF64 (pySlice data 185 193),
        unpackF64 (pySlice data 193 201), unpackF64 (pySlice data 201 209),
        unpackF64 (pySlice data 209 217), unpackF64 (pySlice data 217 225),
        unpackI16 (pySlice data 225 227) with
  | some appLat, some appLon, some droneLat, some droneLon, some heightAgl,
    some geoAlt, some homeLat, some homeLon, some fr, some spE, some spN,
    some spU, some rs =>
    some { serial_number := rstrip0 (pySlice data 0 64)
           device_type := rstrip0 (pySlice data 64 128)
           app_lat := appLat, app_lon := appLon
           drone_lat := droneLat, drone_lon := droneLon
           height_agl := heightAgl, geodetic_altitude := geoAlt
           home_lat := homeLat, home_lon := homeLon
           freq := fr, speed_e := spE, speed_n := spN, speed_u := spU
           rssi := rs }
  | _, _, _, _, _, _, _, _, _, _, _, _, _ => none

/-- The decoded record with every double interpreted as its exact rational
value, the domain on which the fallback rules of `parse_data_1` operate. -/
structure TelemetryRecord where
  serial_number : List Nat
  device_type : List Nat
  app_lat : ℚ
  app_lon : ℚ
  drone_lat : ℚ
  drone_lon : ℚ
  height_agl : ℚ
  geodetic_altitude : ℚ
  home_lat : ℚ
  home_lon : ℚ
  freq : ℚ
  speed_e : ℚ
  speed_n : ℚ
  speed_u : ℚ
  rssi : ℤ

/-- Interpret the bit-level record as rational values. -/
def interpRaw (r : RawRecord) : TelemetryRecord :=
  { serial_number := r.serial_number, device_type := r.device_type
    app_lat := f64ToRat r.app_lat, app_lon := f64ToRat r.app_lon
    drone_lat := f64ToRat r.drone_lat, drone_lon := f64ToRat r.drone_lon
    height_agl := f64ToRat r.height_agl
    geodetic_altitude := f64ToRat r.geodetic_altitude
    home_lat := f64ToRat r.home_lat, home_lon := f64ToRat r.home_lon
    freq := f64ToRat r.freq, speed_e := f64ToRat r.speed_e
    speed_n := f64ToRat r.speed_n, speed_u := f64ToRat r.speed_u
    rssi := r.rssi }

/-- The dictionary returned by `dji_receiver.parse_data_1` after the
fallback rules: pilot and home possibly zeroed, serial possibly replaced,
horizontal speed derived (and possibly reset), drone position untouched. -/
structure ParsedDict where
  serial_number : List Nat
  device_type : List Nat
  app_lat : ℚ
  app_lon : ℚ
  drone_lat : ℚ
  drone_lon : ℚ
  height_agl : ℚ
  geodetic_altitude : ℚ
  horizontal_speed : ℝ
  vertical_speed : ℚ
  rssi : ℤ
  home_lat : ℚ
  home_lon : ℚ
  freq : ℚ

/-- The fallback half of `dji_receiver.parse_data_1` (lines 130-179):
horizontal speed is the Euclidean norm of the east/north components (the
float computation idealised to the exact real square root), a short trimmed
serial becomes `ALERT_ID`, out-of-range pilot and home coordinates are
zeroed, out-of-range drone coordinates are kept as decoded, and a
horizontal speed above 200 is reset to 0. -/
noncomputable def applyFallbacks (r : TelemetryRecord) : ParsedDict :=
  let horizontalSpeed : ℝ := Real.sqrt (((r.speed_e ^ 2 + r.speed_n ^ 2 : ℚ) : ℝ))
  let serialNumber :=
    if (stripWs r.serial_number).length < 5 then ALERT_ID else r.serial_number
  let pilot : ℚ × ℚ :=
    if ¬(-90 ≤ r.app_lat ∧ r.app_lat ≤ 90) ∨ ¬(-180 ≤ r.app_lon ∧ r.app_lon ≤ 180)
    then (0, 0) else (r.app_lat, r.app_lon)
  let home : ℚ × ℚ :=
    if ¬(-90 ≤ r.home_lat ∧ r.home_lat ≤ 90) ∨ ¬(-180 ≤ r.home_lon ∧ r.home_lon ≤ 180)
    then (0, 0) else (r.home_lat, r.home_lon)
  let hs : ℝ := if horizontalSpeed > 200 then 0 else horizontalSpeed
  { serial_number := serialNumber, device_type := r.device_type
    app_lat := pilot.1, app_lon := pilot.2
    drone_lat := r.drone_lat, drone_lon := r.drone_lon
    height_agl := r.height_agl, geodetic_altitude := r.geodetic_altitude
    horizontal_speed := hs, vertical_speed := r.speed_u, rssi := r.rssi
    home_lat := home.1, home_lon := home.2, freq := r.freq }

/-- Model of `dji_receiver.parse_data_1`: decode, then interpret and apply
fallbacks; a parse failure yields `none` (the empty dictionary). -/
noncomputable def parse_data_1 (data : List Nat) : Option ParsedDict :=
  (decodeFields data).map (fun r => applyFallbacks (interpRaw r))

/-- Model of `dji_receiver.is_valid_latlon`: both coordinates in range and
each individually non-zero. -/
def is_valid_latlon (lat lon : ℚ) : Bool :=
  decide (-90 ≤ lat) && decide (lat ≤ 90) &&
  decide (-180 ≤ lon) && decide (lon ≤ 180) &&
  decide (lat ≠ 0) && decide (lon ≠ 0)

/-- One element of the JSON list built by `format_as_zmq_json`, carrying the
record-dependent fields of each tagged object (constant labels omitted). -/
inductive ZmqMessage where
  | basicId (id : List Nat) (description : List Nat) (rssi : ℤ)
  | locationVector (latitude longitude geodetic_altitude height_agl : ℚ)
      (speed : ℝ) (vert_speed : ℚ)
  | selfId (text : List Nat)
  | system (pilot : Option (ℚ × ℚ)) (home : Option (ℚ × ℚ))
  | frequency (freq : ℚ)

/-- Model of `dji_receiver.format_as_zmq_json`. An empty parse result yields
the empty list. Otherwise: if the drone position is invalid and the cached
monitor GPS is present and valid, the marker is placed at the sensor
position, the Basic ID is forced to `ALERT_ID` and the Self-ID text gets
the `" (alert)"` suffix; the System object appears only when the pilot
and/or home position is valid and holds exactly the valid ones; the
Frequency object always closes the list. -/
def format_as_zmq_json (parsed : Option ParsedDict)
    (monitor_gps : Option (ℚ × ℚ × ℚ)) : List ZmqMessage :=
  match parsed with
  | none => []
  | some p =>
    let own : ℚ × ℚ × Bool := (p.drone_lat, p.drone_lon, false)
    let placement : ℚ × ℚ × Bool :=
      if is_valid_latlon p.drone_lat p.drone_lon then own
      else
        match monitor_gps with
        | some (ml, mo, _) =>
          if is_valid_latlon ml mo then (ml, mo, true) else own
        | none => own
    let usedSensor := placement.2.2
    let basicIdValue := if usedSensor then ALERT_ID else p.serial_number
    let selfIdText :=
      if usedSensor then p.device_type ++ ALERT_SUFFIX else p.device_type
    let hasValidPilot := is_valid_latlon p.app_lat p.app_lon
    let hasValidHome := is_valid_latlon p.home_lat p.home_lon
    [ZmqMessage.basicId basicIdValue p.device_type p.rssi,
     ZmqMessage.locationVector placement.1 placement.2.1
       p.geodetic_altitude p.height_agl p.horizontal_speed p.vertical_speed,
     ZmqMessage.selfId selfIdText]
    ++ (if hasValidPilot || hasValidHome then
          [ZmqMessage.system
            (if hasValidPilot then some (p.app_lat, p.app_lon) else none)
            (if hasValidHome then some (p.home_lat, p.home_lon) else none)]
        else [])
    ++ [ZmqMessage.frequency p.freq]

/-- One iteration of the inner loop of `dji_receiver.tcp_client` on a
received frame: parse the frame, and when the package type is 0x01 and the
data segment is non-empty, decode, format, and publish the message list iff
it is non-empty. `none` means nothing is published for this frame. -/
noncomputable def processFrame (frame : List Nat)
    (sensor : Option (ℚ × ℚ × ℚ)) : Option (List ZmqMessage) :=
  match parse_frame frame with
  | .ok packageType data =>
    if packageType = 1 ∧ data ≠ [] then
      match format_as_zmq_json (parse_data_1 data) sensor with
      | [] => none
      | msgs => some msgs
    else none
  | _ => none

/-- One candidate position drawn from a monitor message by
`poll_monitor_for_gps`: each field is `some` exactly when the JSON value is
present and numeric (Python's `isinstance(x, (int, float))` test). -/
structure GpsCandidate where
  latitude : Option ℚ
  longitude : Option ℚ
  altitude : Option ℚ

/-- The cache-update step of `dji_receiver.poll_monitor_for_gps` for one
candidate: `_last_sensor_gps` is overwritten wholesale iff latitude and
longitude are numeric and within range (no zero check); a non-numeric
altitude is stored as 0. -/
def update_sensor_gps (cache : Option (ℚ × ℚ × ℚ)) (c : GpsCandidate) :
    Option (ℚ × ℚ × ℚ) :=
  match c.latitude, c.longitude with
  | some lat, some lon =>
    if (-90 ≤ lat ∧ lat ≤ 90) ∧ (-180 ≤ lon ∧ lon ≤ 180) then
      some (lat, lon, c.altitude.getD 0)
    else cache
  | _, _ => cache

end DjiReceiver

/-- Python exceptions escaping the legacy decoders: `NameError` from reading
a local that the `except UnicodeDecodeError` path left unbound,
`struct.error` from an unpack on a slice of the wrong width, `IndexError`
from `data[128]` on a short payload. -/
inductive PyError where
  | nameError
  | structError
  | indexError
deriving DecidableEq

/-- The dictionary built by the legacy decoders `djidrone_cot.parse_data`
and `rece_info.parse_data_1` on their success path; doubles carried as
64-bit patterns. -/
structure LegacyRecord where
  serial_number : List Nat
  device_type : List Nat
  device_type_8 : Nat
  app_lat : Nat
  app_lon : Nat
  drone_lat : Nat
  drone_lon : Nat
  height : Nat
  altitude : Nat
  home_lat : Nat
  home_lon : Nat
  freq : Nat
  speed_E : Nat
  speed_N : Nat
  speed_U : Nat
  rssi : ℤ
deriving DecidableEq

namespace ReceInfo

/-- Model of `rece_info.parse_data_1`. The two text slices are decoded with
strict UTF-8 first; on `UnicodeDecodeError` the handler binds only
`device_type` and `device_type_8`, and the subsequent dictionary literal
reads locals that were never bound, raising an uncaught `NameError` — so no
record is ever returned on that path. On the success path, `data[128]` can
raise `IndexError`, and each unpack requires its exact width: note the
source slices `data[225:233]` (8 bytes) for the 2-byte `'h'` unpack, so the
final unpack succeeds only when the payload is exactly 227 bytes long. -/
def parse_data_1 (data : List Nat) : Except PyError LegacyRecord :=
  if utf8Valid (pySlice data 0 64) && utf8Valid (pySlice data 64 128) then
    if 128 < data.length then
      match unpackF64 (pySlice data 129 137), unpackF64 (pySlice data 137 145),
            unpackF64 (pySlice data 145 153), unpackF64 (pySlice data 153 161),
            unpackF64 (pySlice data 161 169), unpackF64 (pySlice data 169 177),
            unpackF64 (pySlice data 177 185), unpackF64 (pySlice data 185 193),
            unpackF64 (pySlice data 193 201), unpackF64 (pySlice data 201 209),
            unpackF64 (pySlice data 209 217), unpackF64 (pySlice data 217 225),
            unpackI16 (pySlice data 225 233) with
      | some appLat, some appLon, some droneLat, some droneLon, some height,
        some altitude, some homeLat, some homeLon, some fr, some spE,
        some spN, some spU, some rs =>
        .ok { serial_number := rstrip0 (pySlice data 0 64)
              device_type := rstrip0 (pySlice data 64 128)
              device_type_8 := data.getD 128 0
              app_lat := appLat, app_lon := appLon
              drone_lat := droneLat, drone_lon := droneLon
              height := height, altitude := altitude
              home_lat := homeLat, home_lon := homeLon
              freq := fr, speed_E := spE, speed_N := spN, speed_U := spU
              rssi := rs }
      | _, _, _, _, _, _, _, _, _, _, _, _, _ => .error .structError
    else .error .indexError
  else .error .nameError

end ReceInfo

namespace DjidroneCot

/-- Model of `djidrone_cot.parse_data`: identical control flow to
`rece_info.parse_data_1` (bad text leaves `serial_number` and the numeric
locals unbound and the dictionary literal raises `NameError`), with the
RSSI slice corrected to `data[225:227]`. -/
def parse_data (data : List Nat) : Except PyError LegacyRecord :=
  if utf8Valid (pySlice data 0 64) && utf8Valid (pySlice data 64 128) then
    if 128 < data.length then
      match unpackF64 (pySlice data 129 137), unpackF64 (pySlice data 137 145),
            unpackF64 (pySlice data 145 153), unpackF64 (pySlice data 153 161),
            unpackF64 (pySlice data 161 169), unpackF64 (pySlice data 169 177),
            unpackF64 (pySlice data 177 185), unpackF64 (pySlice data 185 193),
            unpackF64 (pySlice data 193 201), unpackF64 (pySlice data 201 209),
            unpackF64 (pySlice data 209 217), unpackF64 (pySlice data 217 225),
            unpackI16 (pySlice data 225 227) with
      | some appLat, some appLon, some droneLat, some droneLon, some height,
        some altitude, some homeLat, some homeLon, some fr, some spE,
        some spN, some spU, some rs =>
        .ok { serial_number := rstrip0 (pySlice data 0 64)
              device_type := rstrip0 (pySlice data 64 128)
              device_type_8 := data.getD 128 0
              app_lat := appLat, app_lon := appLon
              drone_lat := droneLat, drone_lon := droneLon
              height := height, altitude := altitude
              home_lat := homeLat, home_lon := homeLon
              freq := fr, speed_E := spE, speed_N := spN, speed_U := spU
              rssi := rs }
      | _, _, _, _, _, _, _, _, _, _, _, _, _ => .error .structError
    else .error .indexError
  else .error .nameError

/-- The three timestamp attributes of the CoT event element, in whole
seconds (the strftime format prints whole seconds with a fixed literal
fractional part, so each clock reading is truncated to its second). -/
structure CotEvent where
  time : ℤ
  start : ℤ
  stale : ℤ
deriving DecidableEq

/-- Time semantics of `djidrone_cot.create_cot_xml_payload_point`. The
function calls `datetime.utcnow()` twice: `now1` formats the `time` and
`start` attributes, and `now2 + 75` seconds formats the `stale` attribute.
`now1` and `now2` are the truncated-to-second readings of the two calls. -/
def create_cot_xml_payload_point (now1 now2 : ℤ) : CotEvent :=
  { time := now1, start := now1, stale := now2 + 75 }

end DjidroneCot

open DjiReceiver

/-! Helper lemmas about slices and little-endian reads. -/

theorem pySlice_length (l : List Nat) (a b : Nat) :
    (pySlice l a b).length = min (b - a) (l.length - a) := by
  simp [pySlice]

theorem leNat_pySlice (data : List Nat) (k : Nat) :
    ∀ off, off + k ≤ data.length →
      leNat (pySlice data off (off + k)) = refLE data off k := by
  induction k with
  | zero => intro off _; simp [pySlice, leNat, refLE]
  | succ k ih =>
    intro off h
    have hoff : off < data.length := by omega
    have hdrop : data.drop off = data.getD off 0 :: data.drop (off + 1) := by
      rw [List.drop_eq_getElem_cons hoff, List.getD_eq_getElem _ _ hoff]
    calc leNat (pySlice data off (off + (k + 1)))
        = leNat ((data.drop off).take (k + 1)) := by
          simp [pySlice]
      _ = leNat (data.getD off 0 :: (data.drop (off + 1)).take k) := by
          rw [hdrop, List.take_succ_cons]
      _ = data.getD off 0 + 256 * leNat ((data.drop (off + 1)).take k) := rfl
      _ = data.getD off 0 + 256 * refLE data (off + 1) k := by
          have := ih (off + 1) (by omega)
          simp only [pySlice] at this
          rw [show off + 1 + k - (off + 1) = k by omega] at this
          rw [this]
      _ = refLE data off (k + 1) := rfl

theorem unpackF64_pySlice (data : List Nat) (off : Nat)
    (h : off + 8 ≤ data.length) :
    unpackF64 (pySlice data off (off + 8)) = some (refLE data off 8) := by
  unfold unpackF64
  rw [if_pos, leNat_pySlice data 8 off h]
  rw [pySlice_length]; omega

theorem unpackI16_pySlice (data : List Nat) (off : Nat)
    (h : off + 2 ≤ data.length) :
    unpackI16 (pySlice data off (off + 2)) = some (toI16 (refLE data off 2)) := by
  unfold unpackI16
  rw [if_pos, leNat_pySlice data 2 off h]
  rw [pySlice_length]; omega

/-! Claim C2. The validity predicate shared by the pilot, home and drone
checks requires each coordinate to be individually non-zero, not merely the
pair to be non-zero. -/

/-- C2 counterexample: the pair (37.7, 0.0) satisfies every condition of the
claim (in range, not simultaneously zero), yet `is_valid_latlon` rejects it
because the longitude alone is zero. -/
theorem is_valid_latlon_single_zero_counterexample :
    is_valid_latlon (377 / 10) 0 = false ∧
    (-90 ≤ (377 / 10 : ℚ) ∧ (377 / 10 : ℚ) ≤ 90 ∧
     -180 ≤ (0 : ℚ) ∧ (0 : ℚ) ≤ 180 ∧
     ¬((377 / 10 : ℚ) = 0 ∧ (0 : ℚ) = 0)) := by
  constructor
  · norm_num [is_valid_latlon]
  · refine ⟨by norm_num, by norm_num, by norm_num, by norm_num, ?_⟩
    rintro ⟨h, -⟩
    norm_num at h

/-- C2 amended: for every coordinate pair, `is_valid_latlon` holds iff the
latitude is in [-90, 90], the longitude is in [-180, 180], and each of the
two coordinates is individually non-zero (so a pair with exactly one zero
coordinate, such as (37.7, 0.0), is invalid). -/
theorem is_valid_latlon_characterization (lat lon : ℚ) :
    is_valid_latlon lat lon = true ↔
      (-90 ≤ lat ∧ lat ≤ 90 ∧ -180 ≤ lon ∧ lon ≤ 180 ∧ lat ≠ 0 ∧ lon ≠ 0) := by
  simp [is_valid_latlon, and_assoc]

/-! Claim C9. The CoT timestamps. -/

/-- C9 counterexample: `create_cot_xml_payload_point` reads the clock twice;
when the second reading falls one second after the first, the stale
attribute is 76 seconds after the start attribute, not 75. -/
theorem create_cot_stale_counterexample :
    (DjidroneCot.create_cot_xml_payload_point 0 1).stale ≠
      (DjidroneCot.create_cot_xml_payload_point 0 1).start + 75 := by
  decide

/-- C9 amended: the start attribute always equals the time attribute, and
the stale attribute is exactly 75 seconds after the second clock reading,
so it is exactly 75 seconds after start iff the two clock readings
(truncated to seconds by the timestamp format) coincide. -/
theorem create_cot_time_spec (now1 now2 : ℤ) :
    (DjidroneCot.create_cot_xml_payload_point now1 now2).start =
      (DjidroneCot.create_cot_xml_payload_point now1 now2).time ∧
    (DjidroneCot.create_cot_xml_payload_point now1 now2).stale = now2 + 75 ∧
    ((DjidroneCot.create_cot_xml_payload_point now1 now2).stale =
      (DjidroneCot.create_cot_xml_payload_point now1 now2).start + 75 ↔
      now2 = now1) := by
  refine ⟨rfl, rfl, ?_⟩
  simp only [DjidroneCot.create_cot_xml_payload_point]
  omega

/-! Claim C6. The auxiliary-position cache update. -/

/-- C6 counterexample: a candidate with latitude and longitude both exactly
zero passes the update's range check (which has no zero test) and
overwrites the cached value, contrary to the claim that a (0, 0) pair
leaves the cache unchanged. -/
theorem update_sensor_gps_zero_pair_counterexample :
    update_sensor_gps (some (1, 1, 0))
      { latitude := some 0, longitude := some 0, altitude := some 5 } =
      some (0, 0, 5) ∧
    some ((0 : ℚ), (0 : ℚ), (5 : ℚ)) ≠ some ((1 : ℚ), (1 : ℚ), (0 : ℚ)) := by
  constructor
  · decide
  · decide

/-- C6 amended: the cache is overwritten wholesale (latitude, longitude and
altitude together, a non-numeric altitude stored as 0) iff the candidate's
latitude and longitude are both numeric and within [-90, 90] and
[-180, 180]; there is no zero test, so a (0, 0) candidate is accepted. Any
candidate with a missing or non-numeric coordinate, or an out-of-range
coordinate, leaves the cache unchanged. -/
theorem update_sensor_gps_spec (cache : Option (ℚ × ℚ × ℚ))
    (c : GpsCandidate) :
    (∀ lat lon, c.latitude = some lat → c.longitude = some lon →
      (-90 ≤ lat ∧ lat ≤ 90) ∧ (-180 ≤ lon ∧ lon ≤ 180) →
      update_sensor_gps cache c = some (lat, lon, c.altitude.getD 0)) ∧
    (c.latitude = none → update_sensor_gps cache c = cache) ∧
    (c.longitude = none → update_sensor_gps cache c = cache) ∧
    (∀ lat lon, c.latitude = some lat → c.longitude = some lon →
      ¬((-90 ≤ lat ∧ lat ≤ 90) ∧ (-180 ≤ lon ∧ lon ≤ 180)) →
      update_sensor_gps cache c = cache) := by
  refine ⟨?_, ?_, ?_, ?_⟩
  · intro lat lon h1 h2 h3
    simp only [update_sensor_gps, h1, h2]
    rw [if_pos h3]
  · intro h1
    simp [update_sensor_gps, h1]
  · intro h1
    cases hl : c.latitude <;> simp [update_sensor_gps, hl, h1]
  · intro lat lon h1 h2 h3
    simp only [update_sensor_gps, h1, h2]
    rw [if_neg h3]

/-- C6 witness: a concrete in-range candidate with a missing altitude is
accepted into an empty cache with altitude 0. -/
theorem update_sensor_gps_spec_witness :
    update_sensor_gps none
      { latitude := some 1, longitude := some 2, altitude := none } =
      some (1, 2, 0) :=
  (update_sensor_gps_spec none
    { latitude := some 1, longitude := some 2, altitude := none }).1 1 2
    rfl rfl (by norm_num)

/-! Claim C10. The legacy decoders never return a record when either text
slice is not valid UTF-8. -/

/-- C10: in both legacy decoders, a payload whose serial-number slice or
device-type slice is not valid UTF-8 takes the `UnicodeDecodeError` handler
(which binds only `device_type` and `device_type_8`), and building the
result dictionary then raises an uncaught `NameError`; no record is ever
returned on that path. -/
theorem legacy_bad_text_raises_name_error (data : List Nat)
    (h : utf8Valid (pySlice data 0 64) = false ∨
         utf8Valid (pySlice data 64 128) = false) :
    ReceInfo.parse_data_1 data = .error .nameError ∧
    DjidroneCot.parse_data data = .error .nameError := by
  have hb : (utf8Valid (pySlice data 0 64) &&
             utf8Valid (pySlice data 64 128)) = false := by
    cases h with
    | inl h1 => simp [h1]
    | inr h1 => simp [h1]
  constructor
  · simp [ReceInfo.parse_data_1, hb]
  · simp [DjidroneCot.parse_data, hb]

/-- C10 witness: a one-byte payload `0xFF` is invalid UTF-8 in the serial
slice, and both legacy decoders raise `NameError` on it. -/
theorem legacy_bad_text_raises_name_error_witness :
    utf8Valid (pySlice [255] 0 64) = false ∧
    ReceInfo.parse_data_1 [255] = .error .nameError ∧
    DjidroneCot.parse_data [255] = .error .nameError :=
  ⟨by decide, legacy_bad_text_raises_name_error [255] (Or.inl (by decide))⟩

/-! Claim C5. Frame segmentation. -/

/-- C5 counterexample: a frame declaring a total length of 16 while only 5
bytes are available is parsed successfully with an empty (silently
truncated) payload, instead of failing as the claim states. -/
theorem parse_frame_truncated_counterexample :
    parse_frame [0, 0, 1, 16, 0] = .ok 1 [] ∧
    leNat (pySlice [0, 0, 1, 16, 0] 3 5) = 16 ∧
    ([0, 0, 1, 16, 0] : List Nat).length < 16 := by
  refine ⟨by decide, by decide, by decide⟩

/-- C5 amended: the little-endian u16 at offset 3 is read as the declared
total frame size L and the payload is the byte range [5, L) of the frame,
silently truncated to the bytes actually available (exactly L - 5 bytes
only when the frame holds at least L bytes); parsing fails only when the
length field cannot be read: with 3 or 4 bytes the parser returns its
failure sentinel and the caller skips the frame and keeps reading, while
with fewer than 3 bytes an uncaught IndexError escapes to the reconnect
handler. -/
theorem parse_frame_spec (frame : List Nat) :
    (frame.length < 3 → parse_frame frame = .indexError) ∧
    (3 ≤ frame.length → frame.length < 5 → parse_frame frame = .failed) ∧
    (5 ≤ frame.length →
      parse_frame frame =
        .ok (frame.getD 2 0) (pySlice frame 5 (leNat (pySlice frame 3 5))) ∧
      (pySlice frame 5 (leNat (pySlice frame 3 5))).length =
        min (leNat (pySlice frame 3 5)) frame.length - 5) ∧
    (∀ sensor, parse_frame frame = .failed →
      processFrame frame sensor = none) := by
  refine ⟨?_, ?_, ?_, ?_⟩
  · intro h
    unfold parse_frame
    rw [dif_pos h]
  · intro h3 h5
    have hu : unpackU16le (pySlice frame 3 5) = none := by
      unfold unpackU16le
      rw [if_neg]
      rw [pySlice_length]; omega
    unfold parse_frame
    rw [dif_neg (by omega)]
    simp [hu]
  · intro h5
    have hu : unpackU16le (pySlice frame 3 5) =
        some (leNat (pySlice frame 3 5)) := by
      unfold unpackU16le
      rw [if_pos]
      rw [pySlice_length]; omega
    constructor
    · unfold parse_frame
      rw [dif_neg (by omega)]
      simp only [hu]
      have h2 : frame.get ⟨2, by omega⟩ = frame.getD 2 0 := by
        rw [List.getD_eq_getElem _ _ (by omega)]
        rfl
      rw [h2, show 5 + leNat (pySlice frame 3 5) - 5 =
        leNat (pySlice frame 3 5) by omega]
    · rw [pySlice_length]; omega
  · intro sensor hfail
    simp [processFrame, hfail]

/-- C5 witness: a 3-byte frame has an unreadable length field, parsing
returns the failure sentinel and the caller publishes nothing. -/
theorem parse_frame_spec_witness :
    3 ≤ ([0, 0, 1] : List Nat).length ∧ ([0, 0, 1] : List Nat).length < 5 ∧
    parse_frame [0, 0, 1] = .failed ∧
    processFrame [0, 0, 1] none = none :=
  ⟨by decide, by decide,
   (parse_frame_spec [0, 0, 1]).2.1 (by decide) (by decide),
   (parse_frame_spec [0, 0, 1]).2.2.2 none
     ((parse_frame_spec [0, 0, 1]).2.1 (by decide) (by decide))⟩

/-! Claim C7. The horizontal-speed rule. -/

/-- C7: for every decoded record, the published horizontal speed is the
Euclidean norm of the east/north velocity components when that norm is at
most 200, and exactly 0 (never a clamped 200) when the norm exceeds 200;
the vertical velocity is passed through unaltered in both cases. -/
theorem horizontal_speed_spec (r : TelemetryRecord) :
    (Real.sqrt (((r.speed_e ^ 2 + r.speed_n ^ 2 : ℚ) : ℝ)) ≤ 200 →
      (applyFallbacks r).horizontal_speed =
        Real.sqrt (((r.speed_e ^ 2 + r.speed_n ^ 2 : ℚ) : ℝ))) ∧
    (200 < Real.sqrt (((r.speed_e ^ 2 + r.speed_n ^ 2 : ℚ) : ℝ)) →
      (applyFallbacks r).horizontal_speed = 0) ∧
    (applyFallbacks r).vertical_speed = r.speed_u := by
  refine ⟨?_, ?_, rfl⟩
  · intro h
    show (if Real.sqrt (((r.speed_e ^ 2 + r.speed_n ^ 2 : ℚ) : ℝ)) > 200
          then (0 : ℝ)
          else Real.sqrt (((r.speed_e ^ 2 + r.speed_n ^ 2 : ℚ) : ℝ))) = _
    rw [if_neg (not_lt.mpr h)]
  · intro h
    show (if Real.sqrt (((r.speed_e ^ 2 + r.speed_n ^ 2 : ℚ) : ℝ)) > 200
          then (0 : ℝ)
          else Real.sqrt (((r.speed_e ^ 2 + r.speed_n ^ 2 : ℚ) : ℝ))) = _
    rw [if_pos h]

/-- The decoded record of the spec's 3-4-5 example: velocity east 3, north
4, up 1. -/
def speedExample : TelemetryRecord :=
  { serial_number := [], device_type := [], app_lat := 0, app_lon := 0
    drone_lat := 0, drone_lon := 0, height_agl := 0, geodetic_altitude := 0
    home_lat := 0, home_lon := 0, freq := 0
    speed_e := 3, speed_n := 4, speed_u := 1, rssi := 0 }

/-- C7 witness: on the 3-4-5 example the published horizontal speed is
exactly 5 and the vertical speed is unchanged at 1. -/
theorem horizontal_speed_spec_witness :
    Real.sqrt (((speedExample.speed_e ^ 2 + speedExample.speed_n ^ 2 : ℚ) : ℝ)) ≤ 200 ∧
    (applyFallbacks speedExample).horizontal_speed = 5 ∧
    (applyFallbacks speedExample).vertical_speed = 1 := by
  have hval : (((speedExample.speed_e ^ 2 + speedExample.speed_n ^ 2 : ℚ) : ℝ)) = 25 := by
    norm_num [speedExample]
  have hs5 : Real.sqrt (((speedExample.speed_e ^ 2 + speedExample.speed_n ^ 2 : ℚ) : ℝ)) = 5 := by
    rw [hval, show (25 : ℝ) = 5 ^ 2 by norm_num, Real.sqrt_sq (by norm_num)]
  have hle : Real.sqrt (((speedExample.speed_e ^ 2 + speedExample.speed_n ^ 2 : ℚ) : ℝ)) ≤ 200 := by
    rw [hs5]; norm_num
  refine ⟨hle, ?_, (horizontal_speed_spec speedExample).2.2⟩
  rw [(horizontal_speed_spec speedExample).1 hle, hs5]

/-! Claim C1. Substitution of the auxiliary position. -/

/-- C1: for every decoded record whose drone position is invalid under the
shared validity predicate and every cached auxiliary position that the same
predicate accepts, the published list places the drone marker at the
auxiliary coordinates, appends the alert marker to the Self-ID text, and
forces the Basic ID serial to the alert sentinel regardless of the
record's original serial number. -/
theorem aux_position_substitution (p : ParsedDict) (ml mo alt : ℚ)
    (hdrone : is_valid_latlon p.drone_lat p.drone_lon = false)
    (haux : is_valid_latlon ml mo = true) :
    format_as_zmq_json (some p) (some (ml, mo, alt)) =
      [ZmqMessage.basicId ALERT_ID p.device_type p.rssi,
       ZmqMessage.locationVector ml mo p.geodetic_altitude p.height_agl
         p.horizontal_speed p.vertical_speed,
       ZmqMessage.selfId (p.device_type ++ ALERT_SUFFIX)]
      ++ (if is_valid_latlon p.app_lat p.app_lon ||
             is_valid_latlon p.home_lat p.home_lon then
            [ZmqMessage.system
              (if is_valid_latlon p.app_lat p.app_lon then
                some (p.app_lat, p.app_lon) else none)
              (if is_valid_latlon p.home_lat p.home_lon then
                some (p.home_lat, p.home_lon) else none)]
          else [])
      ++ [ZmqMessage.frequency p.freq] := by
  simp [format_as_zmq_json, hdrone, haux]

/-- A concrete record with an out-of-range drone latitude and an ordinary
six-character serial number, used to exercise the substitution path. -/
def invalidDroneParsed : ParsedDict :=
  { serial_number := [65, 66, 67, 68, 69, 70], device_type := [77]
    app_lat := 0, app_lon := 0, drone_lat := 500, drone_lon := 0
    height_agl := 10, geodetic_altitude := 100, horizontal_speed := 0
    vertical_speed := 0, rssi := -75, home_lat := 0, home_lon := 0
    freq := 2437 }

/-- C1 witness: with drone latitude 500 (invalid) and a cached sensor
position (37.7, -122.4, 10), the output uses the sensor coordinates, the
alert serial, and the marked Self-ID text. -/
theorem aux_position_substitution_witness :
    is_valid_latlon invalidDroneParsed.drone_lat invalidDroneParsed.drone_lon = false ∧
    is_valid_latlon (377 / 10) (-1224 / 10) = true ∧
    format_as_zmq_json (some invalidDroneParsed) (some (377 / 10, -1224 / 10, 10)) =
      [ZmqMessage.basicId ALERT_ID invalidDroneParsed.device_type invalidDroneParsed.rssi,
       ZmqMessage.locationVector (377 / 10) (-1224 / 10)
         invalidDroneParsed.geodetic_altitude invalidDroneParsed.height_agl
         invalidDroneParsed.horizontal_speed invalidDroneParsed.vertical_speed,
       ZmqMessage.selfId (invalidDroneParsed.device_type ++ ALERT_SUFFIX)]
      ++ (if is_valid_latlon invalidDroneParsed.app_lat invalidDroneParsed.app_lon ||
             is_valid_latlon invalidDroneParsed.home_lat invalidDroneParsed.home_lon then
            [ZmqMessage.system
              (if is_valid_latlon invalidDroneParsed.app_lat invalidDroneParsed.app_lon then
                some (invalidDroneParsed.app_lat, invalidDroneParsed.app_lon) else none)
              (if is_valid_latlon invalidDroneParsed.home_lat invalidDroneParsed.home_lon then
                some (invalidDroneParsed.home_lat, invalidDroneParsed.home_lon) else none)]
          else [])
      ++ [ZmqMessage.frequency invalidDroneParsed.freq] :=
  ⟨by norm_num [is_valid_latlon, invalidDroneParsed],
   by norm_num [is_valid_latlon],
   aux_position_substitution invalidDroneParsed (377 / 10) (-1224 / 10) 10
     (by norm_num [is_valid_latlon, invalidDroneParsed])
     (by norm_num [is_valid_latlon])⟩

/-! Claim C8. Shape of the JSON rendering. -/

/-- C8: for every non-empty decoded record the rendering is, in order, a
Basic ID object (describing the record's device type and signal strength),
a Location/Vector object (carrying the altitudes and speeds of the
record), a Self-ID object, a System object present exactly when the pilot
and/or home position is valid and containing exactly the valid ones, and a
Frequency object always present with the raw decoded frequency; an empty
decode yields the empty list, and the caller then publishes nothing. -/
theorem format_shape (p : ParsedDict) (sensor : Option (ℚ × ℚ × ℚ)) :
    (∃ idValue dLat dLon selfText,
      format_as_zmq_json (some p) sensor =
        [ZmqMessage.basicId idValue p.device_type p.rssi,
         ZmqMessage.locationVector dLat dLon p.geodetic_altitude p.height_agl
           p.horizontal_speed p.vertical_speed,
         ZmqMessage.selfId selfText]
        ++ (if is_valid_latlon p.app_lat p.app_lon ||
               is_valid_latlon p.home_lat p.home_lon then
              [ZmqMessage.system
                (if is_valid_latlon p.app_lat p.app_lon then
                  some (p.app_lat, p.app_lon) else none)
                (if is_valid_latlon p.home_lat p.home_lon then
                  some (p.home_lat, p.home_lon) else none)]
            else [])
        ++ [ZmqMessage.frequency p.freq]) ∧
    format_as_zmq_json none sensor = [] ∧
    (∀ frame data, parse_frame frame = .ok 1 data → data ≠ [] →
      parse_data_1 data = none → processFrame frame sensor = none) := by
  refine ⟨⟨_, _, _, _, rfl⟩, rfl, ?_⟩
  intro frame data hpf hne hpd
  simp [processFrame, hpf, hne, hpd, format_as_zmq_json]

/-- C8 witness: a frame of package type 1 whose one-byte payload fails to
decode leads to no publication. -/
theorem format_shape_witness :
    parse_frame [0, 0, 1, 6, 0, 0] = .ok 1 [0] ∧
    ([0] : List Nat) ≠ [] ∧
    parse_data_1 [0] = none ∧
    processFrame [0, 0, 1, 6, 0, 0] none = none := by
  have hpd : parse_data_1 [0] = none := by
    rw [parse_data_1, show decodeFields [0] = none from by decide]
    rfl
  exact ⟨by decide, by decide, hpd,
    (format_shape invalidDroneParsed none).2.2 [0, 0, 1, 6, 0, 0] [0]
      (by decide) (by decide) hpd⟩

/-! Claim C3. Layout and totality of the record decoder. -/

/-- C3: every 227-byte payload decodes successfully, and each field equals
the little-endian reference reading at the documented offset: the text
fields are bytes 0..63 and 64..127 with trailing NULs trimmed, byte 128 is
skipped, the thirteen doubles sit at offsets 129 through 217 in steps of
8, and the signal strength is the little-endian signed 16-bit value at
offset 225. -/
theorem decode_layout (data : List Nat) (h : data.length = 227) :
    decodeFields data = some
      { serial_number := rstrip0 (data.take 64)
        device_type := rstrip0 ((data.drop 64).take 64)
        app_lat := refLE data 129 8, app_lon := refLE data 137 8
        drone_lat := refLE data 145 8, drone_lon := refLE data 153 8
        height_agl := refLE data 161 8, geodetic_altitude := refLE data 169 8
        home_lat := refLE data 177 8, home_lon := refLE data 185 8
        freq := refLE data 193 8, speed_e := refLE data 201 8
        speed_n := refLE data 209 8, speed_u := refLE data 217 8
        rssi := toI16 (refLE data 225 2) } ∧
    (parse_data_1 data).isSome = true := by
  have u129 := unpackF64_pySlice data 129 (by omega)
  have u137 := unpackF64_pySlice data 137 (by omega)
  have u145 := unpackF64_pySlice data 145 (by omega)
  have u153 := unpackF64_pySlice data 153 (by omega)
  have u161 := unpackF64_pySlice data 161 (by omega)
  have u169 := unpackF64_pySlice data 169 (by omega)
  have u177 := unpackF64_pySlice data 177 (by omega)
  have u185 := unpackF64_pySlice data 185 (by omega)
  have u193 := unpackF64_pySlice data 193 (by omega)
  have u201 := unpackF64_pySlice data 201 (by omega)
  have u209 := unpackF64_pySlice data 209 (by omega)
  have u217 := unpackF64_pySlice data 217 (by omega)
  have u225 := unpackI16_pySlice data 225 (by omega)
  norm_num at u129 u137 u145 u153 u161 u169 u177 u185 u193 u201 u209 u217 u225
  have hdec : decodeFields data = some
      { serial_number := rstrip0 (data.take 64)
        device_type := rstrip0 ((data.drop 64).take 64)
        app_lat := refLE data 129 8, app_lon := refLE data 137 8
        drone_lat := refLE data 145 8, drone_lon := refLE data 153 8
        height_agl := refLE data 161 8, geodetic_altitude := refLE data 169 8
        home_lat := refLE data 177 8, home_lon := refLE data 185 8
        freq := refLE data 193 8, speed_e := refLE data 201 8
        speed_n := refLE data 209 8, speed_u := refLE data 217 8
        rssi := toI16 (refLE data 225 2) } := by
    simp only [decodeFields, u129, u137, u145, u153, u161, u169, u177, u185,
      u193, u201, u209, u217, u225]
    have h0 : pySlice data 0 64 = data.take 64 := by
      simp [pySlice]
    have h64 : pySlice data 64 128 = (data.drop 64).take 64 := by
      simp [pySlice]
    rw [h0, h64]
  exact ⟨hdec, by rw [parse_data_1, hdec]; rfl⟩

set_option maxRecDepth 4000 in
/-- C3 witness: the all-zero 227-byte payload decodes to the all-zero
record with empty text fields. -/
theorem decode_layout_witness :
    (List.replicate 227 0).length = 227 ∧
    decodeFields (List.replicate 227 0) = some
      { serial_number := rstrip0 ((List.replicate 227 0).take 64)
        device_type := rstrip0 (((List.replicate 227 0).drop 64).take 64)
        app_lat := refLE (List.replicate 227 0) 129 8
        app_lon := refLE (List.replicate 227 0) 137 8
        drone_lat := refLE (List.replicate 227 0) 145 8
        drone_lon := refLE (List.replicate 227 0) 153 8
        height_agl := refLE (List.replicate 227 0) 161 8
        geodetic_altitude := refLE (List.replicate 227 0) 169 8
        home_lat := refLE (List.replicate 227 0) 177 8
        home_lon := refLE (List.replicate 227 0) 185 8
        freq := refLE (List.replicate 227 0) 193 8
        speed_e := refLE (List.replicate 227 0) 201 8
        speed_n := refLE (List.replicate 227 0) 209 8
        speed_u := refLE (List.replicate 227 0) 217 8
        rssi := toI16 (refLE (List.replicate 227 0) 225 2) } :=
  ⟨by decide, (decode_layout (List.replicate 227 0) (by decide)).1⟩

/-! Claim C4. Short payloads are rejected whole. -/

/-- C4: a payload shorter than 227 bytes never decodes: the decoder yields
the empty result (no partial record), the formatter renders nothing for
it, and the per-frame pipeline publishes nothing and simply moves on. -/
theorem short_payload_drops (data : List Nat) (h : data.length < 227) :
    decodeFields data = none ∧
    parse_data_1 data = none ∧
    (∀ sensor, format_as_zmq_json (parse_data_1 data) sensor = []) ∧
    (∀ frame sensor, parse_frame frame = .ok 1 data →
      processFrame frame sensor = none) := by
  have hr : unpackI16 (pySlice data 225 227) = none := by
    unfold unpackI16
    rw [if_neg]
    rw [pySlice_length]; omega
  have hd : decodeFields data = none := by
    unfold decodeFields
    split
    · simp_all
    · rfl
  have hpd : parse_data_1 data = none := by
    rw [parse_data_1, hd]; rfl
  refine ⟨hd, hpd, fun sensor => by rw [hpd]; rfl, ?_⟩
  intro frame sensor hpf
  by_cases hdata : data = []
  · simp [processFrame, hpf, hdata]
  · simp [processFrame, hpf, hdata, hpd, format_as_zmq_json]

/-- C4 witness: a 10-byte payload yields the empty decode, and a frame
carrying it produces no publication. -/
theorem short_payload_drops_witness :
    (List.replicate 10 0).length < 227 ∧
    parse_data_1 (List.replicate 10 0) = none ∧
    processFrame ([0, 0, 1, 15, 0] ++ List.replicate 10 0) none = none :=
  ⟨by decide,
   (short_payload_drops (List.replicate 10 0) (by decide)).2.1,
   (short_payload_drops (List.replicate 10 0) (by decide)).2.2.2
     ([0, 0, 1, 15, 0] ++ List.replicate 10 0) none (by decide)⟩
